import Mathlib

/-!
Verification of the energy-tracker core (src/energy_tracker.py).

Numbers are modelled by `ℚ`: every constant in the source (3, 1.5, 5.5, …)
and every arithmetic step (base + Σ rate · hours/8 − solar·1.5, ×5.5) is
exact rational arithmetic, so `ℚ` is a faithful shallow embedding of the
Python computation on the inputs the program produces.
-/

/-- Embedding of `calculate_base_consumption` (energy_tracker.py lines 97-106):
a dictionary lookup with default 4. -/
def calculate_base_consumption (home_type : String) : ℚ :=
  if home_type = "1BHK" then 3
  else if home_type = "2BHK" then 4
  else if home_type = "3BHK" then 5
  else if home_type = "4BHK" then 6
  else if home_type = "Villa" then 8
  else 4

/-- Embedding of `get_appliance_consumption` (lines 108-118): a dictionary
lookup with default 1. The source labels are the multiselect strings
("Washing Machine", "Water Heater", "Electric Stove"); the spec names the
same kinds without spaces (WashingMachine, WaterHeater, ElectricStove). -/
def get_appliance_consumption (appliance : String) : ℚ :=
  if appliance = "AC" then 3
  else if appliance = "Fridge" then 2
  else if appliance = "Washing Machine" then 4
  else if appliance = "Dishwasher" then 3
  else if appliance = "Water Heater" then 5
  else if appliance = "Electric Stove" then 4
  else 1

/-- Embedding of `get_consumption_category` (lines 120-127): returns the
label together with the CSS class, exactly as the source does. -/
def get_consumption_category (units : ℚ) : String × String :=
  if units ≤ 5 then ("Low", "consumption-low")
  else if units ≤ 10 then ("Medium", "consumption-medium")
  else ("High", "consumption-high")

/-- Per-appliance contribution as computed at line 237:
`get_appliance_consumption(appliance) * (hours / 8)`. -/
def contribution (appliance : String) (hours : ℚ) : ℚ :=
  get_appliance_consumption appliance * (hours / 8)

/-- The fields the Daily Tracking page computes for one day
(lines 214-284 of energy_tracker.py). -/
structure DailyComputation where
  base_consumption : ℚ
  appliance_consumption : ℚ
  solar_reduction : ℚ
  total_consumption : ℚ
  category : String
  estimated_cost : ℚ
deriving DecidableEq

/-- Embedding of the Daily Tracking computation (lines 214-284):
`daily_consumption` starts at the base for the home size, each used
appliance adds `rate * (hours/8)`, solar (when used) subtracts
`solar_hours * 1.5`, the result is clamped with `max(0, ·)` (line 260),
categorized (line 261), and costed at 5.5 per unit (lines 271, 284).
`applianceHours` lists the appliances checked "used today" with their
slider hours; `solarHours = some s` means the solar checkbox was ticked
with `s` generation hours. -/
def computeDaily (home_facility : String) (applianceHours : List (String × ℚ))
    (solarHours : Option ℚ) : DailyComputation :=
  let base := calculate_base_consumption home_facility
  let applianceTotal := (applianceHours.map (fun p => contribution p.1 p.2)).sum
  let solarReduction : ℚ :=
    match solarHours with
    | some s => s * (3 / 2)
    | none => 0
  let total := max 0 (base + applianceTotal - solarReduction)
  ⟨base, applianceTotal, solarReduction, total,
    (get_consumption_category total).1, total * (11 / 2)⟩

/-- The spec's formula for the daily total (spec §1 and §4.2): base plus the
sum over appliances with hours > 0 of rate × hours/8, minus solar·1.5 when
solar is used, floored at 0. Written from the spec's words for comparison
with `computeDaily`. -/
def specDailyTotal (home_facility : String) (applianceHours : List (String × ℚ))
    (solarHours : Option ℚ) : ℚ :=
  max 0 (calculate_base_consumption home_facility
    + ((applianceHours.filter (fun p => decide (0 < p.2))).map
        (fun p => get_appliance_consumption p.1 * (p.2 / 8))).sum
    - (match solarHours with
       | some s => s * (3 / 2)
       | none => 0))

/-- One persisted row of `energy_consumption_data.csv` (the `daily_data`
dict built at lines 276-286). -/
structure DailyRecord where
  date : String
  day : String
  user_name : String
  base_consumption : ℚ
  appliance_consumption : ℚ
  solar_reduction : ℚ
  total_consumption : ℚ
  estimated_cost : ℚ
  appliances_used : List String
deriving DecidableEq

/-- The dedup key used at line 296: the (date, user_name) column pair. -/
def recordKey (r : DailyRecord) : String × String := (r.date, r.user_name)

/-- Embedding of `df.drop_duplicates(subset=['date','user_name'], keep='last')`
(line 296): a row is kept exactly when no later row has the same
(date, user_name) key, and kept rows stay in their original order. -/
def drop_duplicates : List DailyRecord → List DailyRecord
  | [] => []
  | r :: rest =>
    if rest.any (fun s => decide (recordKey s = recordKey r)) then drop_duplicates rest
    else r :: drop_duplicates rest

/-- Embedding of the save flow (lines 288-298): append the new record to the
loaded data (a fresh singleton when the store was empty), then drop earlier
rows with the same (date, user_name) key. -/
def upsert (existing : List DailyRecord) (daily_data : DailyRecord) : List DailyRecord :=
  let df := if existing.isEmpty then [daily_data] else existing ++ [daily_data]
  drop_duplicates df

/-- The state of the backing CSV as `load_data` (lines 75-84) can find it:
absent (os.path.exists false), unreadable (pd.read_csv raises, caught by the
bare except), or readable with some rows. -/
inductive Backing where
  | absent : Backing
  | unreadable : Backing
  | table : List DailyRecord → Backing

/-- Embedding of `load_data` (lines 75-84): an absent file and a failed read
both yield the empty table; otherwise the stored rows are returned. The
function is total: the bare `except` clause means no read failure escapes. -/
def load_data : Backing → List DailyRecord
  | Backing.absent => []
  | Backing.unreadable => []
  | Backing.table rows => rows

/-- Numeric rank of a category label, for stating monotonicity:
Low < Medium < High. -/
def categoryLevel (label : String) : ℕ :=
  if label = "Low" then 0
  else if label = "Medium" then 1
  else 2

/-- Sample record: key ("2024-01-01", "alice"). -/
def rec1 : DailyRecord :=
  ⟨"2024-01-01", "Monday", "alice", 4, 5, 0, 9, 99 / 2, ["AC", "Fridge"]⟩

/-- Sample record: same key as `rec1`, different payload. -/
def rec2 : DailyRecord :=
  ⟨"2024-01-01", "Monday", "alice", 4, 3, 9, 0, 0, ["AC"]⟩

/-- Sample record: key ("2024-01-02", "alice"). -/
def recA : DailyRecord :=
  ⟨"2024-01-02", "Tuesday", "alice", 4, 2, 0, 6, 33, ["Fridge"]⟩

/-- Sample record: key ("2024-01-02", "bob"), same date as `recA`,
different user. -/
def recB : DailyRecord :=
  ⟨"2024-01-02", "Tuesday", "bob", 3, 0, 0, 3, 33 / 2, []⟩

/-- Claim C2: the category is "Low" for total ≤ 5, "Medium" for
5 < total ≤ 10, "High" for total > 10, ties resolving to the lower band;
in particular 5 ↦ Low, 5.1 ↦ Medium, 10 ↦ Medium, 10.1 ↦ High. -/
theorem get_consumption_category_spec (total : ℚ) :
    (total ≤ 5 → (get_consumption_category total).1 = "Low") ∧
    (5 < total → total ≤ 10 → (get_consumption_category total).1 = "Medium") ∧
    (10 < total → (get_consumption_category total).1 = "High") ∧
    (get_consumption_category 5).1 = "Low" ∧
    (get_consumption_category (51 / 10)).1 = "Medium" ∧
    (get_consumption_category 10).1 = "Medium" ∧
    (get_consumption_category (101 / 10)).1 = "High" := by
  refine ⟨?_, ?_, ?_, by norm_num [get_consumption_category], ?_, ?_, ?_⟩
  · intro h
    simp [get_consumption_category, h]
  · intro h5 h10
    simp [get_consumption_category, not_le.mpr h5, h10]
  · intro h10
    have h5 : ¬ total ≤ 5 := by linarith
    simp [get_consumption_category, h5, not_le.mpr h10]
  · norm_num [get_consumption_category]
  · norm_num [get_consumption_category]
  · norm_num [get_consumption_category]

/-- Witness for C2 at total = 7 (the Medium band, both hypotheses
discharged). -/
theorem get_consumption_category_spec_witness :
    (get_consumption_category (7 : ℚ)).1 = "Medium" :=
  (get_consumption_category_spec 7).2.1 (by norm_num) (by norm_num)

/-- Claim C4: `calculate_base_consumption` is a pure total function mapping
1BHK ↦ 3, 2BHK ↦ 4, 3BHK ↦ 5, 4BHK ↦ 6, Villa ↦ 8, and every other string
to 4 (totality is inherent: the Lean function is total by construction,
matching Python's `dict.get` with a default). -/
theorem calculate_base_consumption_spec (home_type : String)
    (h : home_type ≠ "1BHK" ∧ home_type ≠ "2BHK" ∧ home_type ≠ "3BHK" ∧
      home_type ≠ "4BHK" ∧ home_type ≠ "Villa") :
    calculate_base_consumption home_type = 4 ∧
    calculate_base_consumption "1BHK" = 3 ∧
    calculate_base_consumption "2BHK" = 4 ∧
    calculate_base_consumption "3BHK" = 5 ∧
    calculate_base_consumption "4BHK" = 6 ∧
    calculate_base_consumption "Villa" = 8 := by
  obtain ⟨h1, h2, h3, h4, h5⟩ := h
  refine ⟨?_, rfl, rfl, rfl, rfl, rfl⟩
  simp [calculate_base_consumption, h1, h2, h3, h4, h5]

/-- Witness for C4 at the unrecognized label "Studio". -/
theorem calculate_base_consumption_spec_witness :
    calculate_base_consumption "Studio" = 4 ∧
    calculate_base_consumption "1BHK" = 3 ∧
    calculate_base_consumption "2BHK" = 4 ∧
    calculate_base_consumption "3BHK" = 5 ∧
    calculate_base_consumption "4BHK" = 6 ∧
    calculate_base_consumption "Villa" = 8 :=
  calculate_base_consumption_spec "Studio" (by decide)

/-- Claim C5: `get_appliance_consumption` is a pure total function with
AC ↦ 3, Fridge ↦ 2, Washing Machine ↦ 4, Dishwasher ↦ 3, Water Heater ↦ 5,
Electric Stove ↦ 4 and 1 for any other name; and for every kind and hours,
the contribution (line 237) is rate × hours/8, with contribution at 8 hours
equal to the rate exactly. -/
theorem get_appliance_consumption_spec (unknown kind : String) (hours : ℚ)
    (h : unknown ≠ "AC" ∧ unknown ≠ "Fridge" ∧ unknown ≠ "Washing Machine" ∧
      unknown ≠ "Dishwasher" ∧ unknown ≠ "Water Heater" ∧ unknown ≠ "Electric Stove") :
    get_appliance_consumption "AC" = 3 ∧
    get_appliance_consumption "Fridge" = 2 ∧
    get_appliance_consumption "Washing Machine" = 4 ∧
    get_appliance_consumption "Dishwasher" = 3 ∧
    get_appliance_consumption "Water Heater" = 5 ∧
    get_appliance_consumption "Electric Stove" = 4 ∧
    get_appliance_consumption unknown = 1 ∧
    contribution kind hours = get_appliance_consumption kind * (hours / 8) ∧
    contribution kind 8 = get_appliance_consumption kind := by
  obtain ⟨h1, h2, h3, h4, h5, h6⟩ := h
  refine ⟨rfl, rfl, rfl, rfl, rfl, rfl, ?_, rfl, ?_⟩
  · simp [get_appliance_consumption, h1, h2, h3, h4, h5, h6]
  · unfold contribution
    norm_num

/-- Witness for C5 at the unrecognized name "Toaster", kind "AC",
hours 4. -/
theorem get_appliance_consumption_spec_witness :
    get_appliance_consumption "AC" = 3 ∧
    get_appliance_consumption "Fridge" = 2 ∧
    get_appliance_consumption "Washing Machine" = 4 ∧
    get_appliance_consumption "Dishwasher" = 3 ∧
    get_appliance_consumption "Water Heater" = 5 ∧
    get_appliance_consumption "Electric Stove" = 4 ∧
    get_appliance_consumption "Toaster" = 1 ∧
    contribution "AC" 4 = get_appliance_consumption "AC" * (4 / 8) ∧
    contribution "AC" 8 = get_appliance_consumption "AC" :=
  get_appliance_consumption_spec "Toaster" "AC" 4 (by decide)

/-- Claim C7: `load_data` never raises: an absent backing file and a failed
read both return the empty list of records (so any read failure is
indistinguishable from the no-data-yet state), and every backing state
yields some list of records. -/
theorem load_data_total_spec :
    load_data Backing.absent = [] ∧
    load_data Backing.unreadable = [] ∧
    load_data Backing.absent = load_data Backing.unreadable ∧
    ∀ b : Backing, ∃ rows : List DailyRecord, load_data b = rows :=
  ⟨rfl, rfl, rfl, fun b => ⟨load_data b, rfl⟩⟩

/-- Unfolding lemma: when a later row shares the head's key, the head is
dropped. -/
theorem drop_duplicates_cons_pos {x : DailyRecord} {l : List DailyRecord}
    (h : l.any (fun s => decide (recordKey s = recordKey x)) = true) :
    drop_duplicates (x :: l) = drop_duplicates l := by
  simp [drop_duplicates, h]

/-- Unfolding lemma: when no later row shares the head's key, the head is
kept. -/
theorem drop_duplicates_cons_neg {x : DailyRecord} {l : List DailyRecord}
    (h : l.any (fun s => decide (recordKey s = recordKey x)) = false) :
    drop_duplicates (x :: l) = x :: drop_duplicates l := by
  simp [drop_duplicates, h]

/-- Both branches of the `existing_data.empty` test at lines 290-293 build
the same list, so the save flow always dedupes `existing ++ [new]`. -/
theorem upsert_eq_drop (existing : List DailyRecord) (r : DailyRecord) :
    upsert existing r = drop_duplicates (existing ++ [r]) := by
  cases existing with
  | nil => rfl
  | cons x l => rfl

/-- After appending `r` and dropping earlier duplicates, exactly the row `r`
carries the key of `r`. -/
theorem drop_duplicates_filter_key (l : List DailyRecord) (r : DailyRecord) :
    (drop_duplicates (l ++ [r])).filter
      (fun s => decide (recordKey s = recordKey r)) = [r] := by
  induction l with
  | nil => simp [drop_duplicates]
  | cons x l ih =>
    rw [List.cons_append]
    by_cases hx : (l ++ [r]).any (fun s => decide (recordKey s = recordKey x)) = true
    · rw [drop_duplicates_cons_pos hx]
      exact ih
    · rw [drop_duplicates_cons_neg (Bool.eq_false_iff.mpr hx)]
      have hxr : ¬ recordKey x = recordKey r := by
        intro he
        apply hx
        rw [List.any_eq_true]
        refine ⟨r, List.mem_append_right l (List.mem_singleton.mpr rfl), ?_⟩
        simp [he]
      rw [List.filter_cons]
      simp only [hxr, decide_eq_true_eq, if_false, decide_False]
      simpa using ih

/-- Claim C1: for every home size, appliance-hours map with positive hours,
and optional solar value, the Daily Tracking total equals the spec formula
max(0, base + Σ rate·(hours/8) − solar·1.5), and the total is never
negative, even when the solar reduction exceeds base plus appliances. -/
theorem computeDaily_total_spec (home_facility : String)
    (applianceHours : List (String × ℚ)) (solarHours : Option ℚ)
    (hpos : ∀ p ∈ applianceHours, (0 : ℚ) < p.2) :
    (computeDaily home_facility applianceHours solarHours).total_consumption
      = specDailyTotal home_facility applianceHours solarHours ∧
    0 ≤ (computeDaily home_facility applianceHours solarHours).total_consumption := by
  constructor
  · have hfilter : applianceHours.filter (fun p => decide (0 < p.2)) = applianceHours :=
      List.filter_eq_self.mpr (fun p hp => decide_eq_true (hpos p hp))
    simp [computeDaily, specDailyTotal, hfilter, contribution]
  · exact le_max_left 0 _

/-- Witness for C1 at the spec's own edge example: home "1BHK" (base 3),
no appliances, solar 12 hours (reduction 18, exceeding base). -/
theorem computeDaily_total_spec_witness :
    (computeDaily "1BHK" [] (some 12)).total_consumption
      = specDailyTotal "1BHK" [] (some 12) ∧
    0 ≤ (computeDaily "1BHK" [] (some 12)).total_consumption :=
  computeDaily_total_spec "1BHK" [] (some 12) (by simp)

/-- Claim C3: two upserts for the same (date, user_name) key leave exactly
one record for that key in the store, equal to the second record, and
loading the saved table shows no duplicate for the key. -/
theorem upsert_last_write_wins (store : List DailyRecord) (r1 r2 : DailyRecord)
    (_hkey : recordKey r1 = recordKey r2) :
    (load_data (Backing.table (upsert (upsert store r1) r2))).filter
      (fun s => decide (recordKey s = recordKey r2)) = [r2] := by
  show (upsert (upsert store r1) r2).filter
      (fun s => decide (recordKey s = recordKey r2)) = [r2]
  rw [upsert_eq_drop]
  exact drop_duplicates_filter_key _ r2

/-- Witness for C3: `rec1` then `rec2` (same key, different payload) into an
empty store. -/
theorem upsert_last_write_wins_witness :
    (load_data (Backing.table (upsert (upsert [] rec1) rec2))).filter
      (fun s => decide (recordKey s = recordKey rec2)) = [rec2] :=
  upsert_last_write_wins [] rec1 rec2 (by decide)

/-- Claim C6: the estimated cost is always total × 5.5 with the fixed price,
and the end-to-end example homeSize "2BHK", AC 8h, Fridge 8h, no solar gives
applianceTotal 5, total 9, category "Medium", cost 49.5. -/
theorem estimated_cost_spec (home_facility : String)
    (applianceHours : List (String × ℚ)) (solarHours : Option ℚ) :
    (computeDaily home_facility applianceHours solarHours).estimated_cost
      = (computeDaily home_facility applianceHours solarHours).total_consumption
        * (11 / 2) ∧
    (computeDaily "2BHK" [("AC", 8), ("Fridge", 8)] none).appliance_consumption = 5 ∧
    (computeDaily "2BHK" [("AC", 8), ("Fridge", 8)] none).total_consumption = 9 ∧
    (computeDaily "2BHK" [("AC", 8), ("Fridge", 8)] none).category = "Medium" ∧
    (computeDaily "2BHK" [("AC", 8), ("Fridge", 8)] none).estimated_cost = 99 / 2 := by
  have h1 : ("Fridge" : String) ≠ "AC" := by decide
  have h2 : ("2BHK" : String) ≠ "1BHK" := by decide
  refine ⟨rfl, ?_, ?_, ?_, ?_⟩ <;>
    norm_num [computeDaily, contribution, get_appliance_consumption,
      calculate_base_consumption, get_consumption_category, h1, h2]

/-- Claim C9: an upsert only affects its own (date, user_name) key: any
record of the (key-unique, per the RecordStore invariant) store with a
different key is still present, unchanged, after the upsert — so two users
may each keep a record for the same date. -/
theorem upsert_frame (store : List DailyRecord) (r r' : DailyRecord)
    (hnodup : (store.map recordKey).Nodup)
    (hmem : r' ∈ store) (hne : recordKey r' ≠ recordKey r) :
    r' ∈ upsert store r := by
  rw [upsert_eq_drop]
  induction store with
  | nil => cases hmem
  | cons x l ih =>
    rw [List.map_cons, List.nodup_cons] at hnodup
    obtain ⟨hx_notin, hnodup_l⟩ := hnodup
    rw [List.cons_append]
    rcases List.mem_cons.mp hmem with h_eq | h_mem
    · subst h_eq
      have hany : (l ++ [r]).any (fun s => decide (recordKey s = recordKey r')) = false := by
        rw [List.any_eq_false]
        intro s hs
        simp only [decide_eq_true_eq]
        intro heq
        rcases List.mem_append.mp hs with hsl | hsr
        · exact hx_notin (heq ▸ List.mem_map_of_mem recordKey hsl)
        · rw [List.mem_singleton] at hsr
          subst hsr
          exact hne heq.symm
      rw [drop_duplicates_cons_neg hany]
      exact List.mem_cons_self r' _
    · have hrec := ih hnodup_l h_mem
      by_cases hany : (l ++ [r]).any (fun s => decide (recordKey s = recordKey x)) = true
      · rw [drop_duplicates_cons_pos hany]
        exact hrec
      · rw [drop_duplicates_cons_neg (Bool.eq_false_iff.mpr hany)]
        exact List.mem_cons_of_mem x hrec

/-- Witness for C9: `recA` (alice) stays in the store when `recB` (bob, same
date) is upserted. -/
theorem upsert_frame_witness : recA ∈ upsert [recA] recB :=
  upsert_frame [recA] recB recA (by decide) (by decide) (by decide)

/-- Claim C10: the category function is monotone: a smaller total never maps
to a strictly higher band in the order Low < Medium < High. -/
theorem category_monotone (u v : ℚ) (huv : u ≤ v) :
    categoryLevel (get_consumption_category u).1
      ≤ categoryLevel (get_consumption_category v).1 := by
  by_cases hu5 : u ≤ 5 <;> by_cases hu10 : u ≤ 10 <;>
      by_cases hv5 : v ≤ 5 <;> by_cases hv10 : v ≤ 10 <;>
    first
      | (exfalso; linarith)
      | simp [get_consumption_category, categoryLevel, hu5, hu10, hv5, hv10]

/-- Witness for C10 at u = 3, v = 7 (Low band to Medium band). -/
theorem category_monotone_witness :
    categoryLevel (get_consumption_category 3).1
      ≤ categoryLevel (get_consumption_category 7).1 :=
  category_monotone 3 7 (by norm_num)
